import Mathlib

/-!
Verification of `fabric/plugins/modules/google_cloud_interconnect_connection.py`
(pureport/pureport).

The module under study has two functions:
  * `construct_connection(module)` builds the nested request payload for a
    Google Cloud Interconnect connection from the flat Ansible parameters;
  * `main()` assembles the argument schema and delegates to a shared CRUD helper.

We give a shallow embedding. Python JSON-like values become `Pureport.Value`;
Python `dict`s become association lists with Python `dict` insertion/update
semantics (replace in place when the key exists, append otherwise). Ansible's
`snake_dict_to_camel_dict` (from `ansible.module_utils.common.dict_transformations`,
an external library whose source is not part of this repository) is embedded
following its documented semantics: every dict key is rewritten by splitting on
underscores and capitalizing every word but the first, recursively through
dicts and lists, leaving non-dict, non-list leaves unchanged.
-/

namespace Pureport

/-- A Python/JSON-like value: `None`, `bool`, `int`, `str`, `list`, `dict`.
Dicts are ordered association lists, as Python dicts are insertion ordered. -/
inductive Value where
  | null
  | bool (b : Bool)
  | int (n : Int)
  | str (s : String)
  | list (xs : List Value)
  | dict (kvs : List (String × Value))
deriving Repr

/-- Python `d[k] = v` on an ordered dict represented as an association list:
if the key is present its value is replaced in place, otherwise the pair is
appended at the end. -/
def dictInsert {α : Type} (kvs : List (String × α)) (k : String) (v : α) :
    List (String × α) :=
  if kvs.any (fun kv => kv.1 == k) then
    kvs.map (fun kv => if kv.1 == k then (k, v) else kv)
  else
    kvs ++ [(k, v)]

/-- Python `d.update(u)`: set each key of `u` in `d`, in `u`'s order. -/
def dictUpdate {α : Type} (kvs upd : List (String × α)) : List (String × α) :=
  upd.foldl (fun acc kv => dictInsert acc kv.1 kv.2) kvs

/-- Python `d.get(k)` restricted to present keys: first binding of `k`. -/
def dictGet {α : Type} (kvs : List (String × α)) (k : String) : Option α :=
  (kvs.find? (fun kv => kv.1 == k)).map Prod.snd

/-- Lookup of a key in a `Value`, defined only on dicts. -/
def Value.getKey : Value → String → Option Value
  | .dict kvs, k => dictGet kvs k
  | _, _ => none

/-- Python `str.split(sep)` for a one-character separator, on the character
list of the string. -/
def splitOnChar (sep : Char) : List Char → List (List Char)
  | [] => [[]]
  | c :: cs =>
    let r := splitOnChar sep cs
    if c = sep then [] :: r
    else
      match r with
      | [] => [[c]]
      | w :: ws => (c :: w) :: ws

/-- Python `str.capitalize()`: first character uppercased, the rest lowercased. -/
def pyCapitalize (cs : List Char) : List Char :=
  match cs with
  | [] => []
  | c :: rest => c.toUpper :: rest.map Char.toLower

/-- The key transform of Ansible's `snake_dict_to_camel_dict` with
`capitalize_first=False`: split on `_`, keep the first word as is, capitalize
the following words, and join. -/
def camel (words : String) : String :=
  match splitOnChar (Char.ofNat 95) words.data with
  | [] => ""
  | w :: ws => String.mk (w ++ (ws.map pyCapitalize).foldr (fun a b => a ++ b) [])

mutual

/-- The recursive body of Ansible's `snake_dict_to_camel_dict`: rebuild dicts
with camel-cased keys and recursed values, recurse through lists, and return
every other value unchanged. -/
def camelizeValue : Value → Value
  | .null => .null
  | .bool b => .bool b
  | .int n => .int n
  | .str s => .str s
  | .list xs => .list (camelizeList xs)
  | .dict kvs => .dict (camelizeEntries kvs [])

/-- Camelization mapped over the elements of a list value. -/
def camelizeList : List Value → List Value
  | [] => []
  | x :: xs => camelizeValue x :: camelizeList xs

/-- Camelization of a dict: iterate the entries in order, inserting
`camel key ↦ camelize value` into a fresh dict (so key collisions after the
rename behave exactly as in Python, last write wins). -/
def camelizeEntries : List (String × Value) → List (String × Value) →
    List (String × Value)
  | [], acc => acc
  | (k, v) :: rest, acc => camelizeEntries rest (dictInsert acc (camel k) (camelizeValue v))

end

/-- Ansible's `snake_dict_to_camel_dict` with its default `capitalize_first=False`. -/
def snake_dict_to_camel_dict (v : Value) : Value := camelizeValue v

/-- The parameter mapping of an Ansible module; `get` is Python
`module.params.get(k)`, returning `None` (`Value.null`) for an absent key. -/
structure Params where
  get : String → Value

/-- The state of an `AnsibleModule` that `construct_connection` can observe or
modify: its parameter mapping. -/
structure AnsibleModule where
  params : Params

/-- Modelled from the spec: `get_object_link` lives in
`module_utils/pureport_client.py`, which is not among the provided sources.
The spec says the constructor "resolves a location reference (by id or by a
reference path, mutually exclusive) into a reference object": with the id
field set, the reference is built from the base path and the id; with the
href field set, it is built from that href path. -/
def get_object_link (module : AnsibleModule) (basePath idField hrefField : String) :
    Value :=
  match module.params.get idField with
  | .str i => .dict [("href", .str (basePath ++ "/" ++ i))]
  | _ =>
    match module.params.get hrefField with
    | .str h => .dict [("href", .str h)]
    | _ => .null

/-- Python iteration (`for x in v`): lists yield their elements, strings their
one-character substrings, dicts their keys; `None`, booleans and integers are
not iterable (`TypeError`), modelled as `none`. -/
def pyIter : Value → Option (List Value)
  | .list xs => some xs
  | .str s => some (s.data.map (fun c => Value.str (String.mk [c])))
  | .dict kvs => some (kvs.map (fun kv => Value.str kv.1))
  | _ => none

/-- Embedding of `construct_connection(module)` (lines 540-570 of the module).
The returned pair carries the payload together with the module as it stands
after the call, so that frame properties are statable. A Python `TypeError`
(from iterating a non-iterable `nat_mappings`) is `none`. The call
`snake_dict_to_camel_dict(connection)` is applied to a dict and thus is
`camelizeEntries connection []`. -/
def construct_connection (module : AnsibleModule) : Option (Value × AnsibleModule) :=
  let connection : List (String × Value) :=
    ["id", "name", "description", "speed", "high_availability", "billing_term",
     "customer_networks", "primary_pairing_key", "secondary_pairing_key"].map
      (fun k => (k, module.params.get k))
  match pyIter (module.params.get "nat_mappings") with
  | none => none
  | some natMappings =>
    let connection := dictUpdate connection
      [("type", .str "GOOGLE_CLOUD_INTERCONNECT"),
       ("location", get_object_link module "/locations" "location_id" "location_href"),
       ("nat", .dict
         [("enabled", module.params.get "nat_enabled"),
          ("mappings", .list (natMappings.map
            (fun nat_mapping => .dict [("native_cidr", nat_mapping)])))])]
    let connection := camelizeEntries connection []
    let connection := dictUpdate connection [("tags", module.params.get "tags")]
    some (.dict connection, module)

/-- The payload `construct_connection` returns, spelled out entry by entry:
the nine allowlisted parameters under their camel-cased keys with camelized
values, the constant `type`, the camelized location reference, the camelized
NAT sub-object, and the raw `tags` parameter appended last. -/
def payloadOf (module : AnsibleModule) (natMappings : List Value) :
    List (String × Value) :=
  [("id", camelizeValue (module.params.get "id")),
   ("name", camelizeValue (module.params.get "name")),
   ("description", camelizeValue (module.params.get "description")),
   ("speed", camelizeValue (module.params.get "speed")),
   ("highAvailability", camelizeValue (module.params.get "high_availability")),
   ("billingTerm", camelizeValue (module.params.get "billing_term")),
   ("customerNetworks", camelizeValue (module.params.get "customer_networks")),
   ("primaryPairingKey", camelizeValue (module.params.get "primary_pairing_key")),
   ("secondaryPairingKey", camelizeValue (module.params.get "secondary_pairing_key")),
   ("type", .str "GOOGLE_CLOUD_INTERCONNECT"),
   ("location", camelizeValue (get_object_link module "/locations" "location_id" "location_href")),
   ("nat", .dict
     [("enabled", camelizeValue (module.params.get "nat_enabled")),
      ("mappings", .list (natMappings.map
        (fun nat_mapping => .dict [("nativeCidr", camelizeValue nat_mapping)])))]),
   ("tags", module.params.get "tags")]

/-- A concrete, fully specified parameter set used to instantiate the
universally quantified theorems on an explicit input. -/
def exampleParams : Params :=
  ⟨fun k =>
    if k = "name" then .str "My Connection"
    else if k = "speed" then .int 50
    else if k = "high_availability" then .bool true
    else if k = "billing_term" then .str "HOURLY"
    else if k = "customer_networks" then .list [.dict [("address", .str "10.0.0.0/24"), ("name", .str "My Subnet")]]
    else if k = "primary_pairing_key" then .str "pk/1"
    else if k = "location_id" then .str "us-sea"
    else if k = "nat_enabled" then .bool true
    else if k = "nat_mappings" then .list [.str "10.0.0.0/24"]
    else if k = "tags" then .dict [("my_tag", .str "v")]
    else .null⟩

/-- A module built from `exampleParams`. -/
def exampleModule : AnsibleModule := ⟨exampleParams⟩

/-- A module whose parameters are all unset (every `get` returns `None`). -/
def nullParamsModule : AnsibleModule := ⟨⟨fun _ => .null⟩⟩

/-- A parameter set whose `customer_networks` value contains a nested dict
with a snake_case key, exercising the recursion of the naming transform into
copied values. -/
def cexParams : Params :=
  ⟨fun k =>
    if k = "customer_networks" then .list [.dict [("my_key", .str "v")]]
    else if k = "nat_mappings" then .list []
    else .null⟩

/-- A module built from `cexParams`. -/
def cexModule : AnsibleModule := ⟨cexParams⟩

/-- One entry of an Ansible argument-spec dict: the declared `type` string and
the optional `required` flag (a key that may be absent from the Python dict). -/
structure ArgSpecEntry where
  ty : String
  required : Option Bool

/-- Ansible treats a missing `required` key as `required=False`. -/
def ArgSpecEntry.isRequired (e : ArgSpecEntry) : Bool := e.required.getD false

/-- The literal resource-specific argument-spec fragment of `main` (lines
582-587): `primary_pairing_key=dict(type='str', required=True)` and
`secondary_pairing_key=dict(type='str')`. -/
def pairing_key_argument_spec : List (String × ArgSpecEntry) :=
  [("primary_pairing_key", ⟨"str", some true⟩),
   ("secondary_pairing_key", ⟨"str", none⟩)]

/-- The argument-spec assembly of `main`: the merged helper fragments (not in
the provided sources, abstracted as `base`) updated with the resource-specific
pairing-key fragment. -/
def main_argument_spec (base : List (String × ArgSpecEntry)) :
    List (String × ArgSpecEntry) :=
  dictUpdate base pairing_key_argument_spec

/-! Association-list lemmas about `dictInsert`, `dictUpdate` and `dictGet`. -/

theorem find_of_replace {α : Type} (kvs : List (String × α)) (k : String) (v : α) :
    List.find? (fun kv => kv.1 == k) (kvs.map (fun kv => if kv.1 == k then (k, v) else kv))
      = if kvs.any (fun kv => kv.1 == k) then some (k, v) else none := by
  induction kvs with
  | nil => rfl
  | cons hd tl ih =>
    cases h : (hd.1 == k) with
    | true =>
      have hhd : (if (hd.1 == k) = true then (k, v) else hd) = (k, v) := by
        rw [h]
        simp
      rw [List.map_cons, hhd, List.find?_cons_of_pos _ (by simp), List.any_cons, h,
        Bool.true_or, if_pos rfl]
    | false =>
      have hhd : (if (hd.1 == k) = true then (k, v) else hd) = hd := by
        rw [h]
        simp
      rw [List.map_cons, hhd, List.find?_cons_of_neg _ (by simp [h]), ih, List.any_cons, h,
        Bool.false_or]

theorem find_of_replace_ne {α : Type} (kvs : List (String × α)) (k k' : String) (v : α)
    (hne : k' ≠ k) :
    List.find? (fun kv => kv.1 == k') (kvs.map (fun kv => if kv.1 == k then (k, v) else kv))
      = List.find? (fun kv => kv.1 == k') kvs := by
  induction kvs with
  | nil => rfl
  | cons hd tl ih =>
    cases h : (hd.1 == k) with
    | true =>
      have hk : hd.1 = k := by simpa using h
      have hhd : (if (hd.1 == k) = true then (k, v) else hd) = (k, v) := by
        rw [h]
        simp
      have hp1 : ¬ ((fun kv : String × α => kv.1 == k') (k, v)) = true := by
        simp [Ne.symm hne]
      have hp2 : ¬ ((fun kv : String × α => kv.1 == k') hd) = true := by
        simp [hk, Ne.symm hne]
      rw [List.map_cons, hhd,
        @List.find?_cons_of_neg _ (fun kv : String × α => kv.1 == k') (k, v) _ hp1,
        @List.find?_cons_of_neg _ (fun kv : String × α => kv.1 == k') hd _ hp2, ih]
    | false =>
      have hhd : (if (hd.1 == k) = true then (k, v) else hd) = hd := by
        rw [h]
        simp
      cases h' : (hd.1 == k') with
      | true =>
        rw [List.map_cons, hhd,
          @List.find?_cons_of_pos _ (fun kv : String × α => kv.1 == k') hd _ h',
          @List.find?_cons_of_pos _ (fun kv : String × α => kv.1 == k') hd _ h']
      | false =>
        rw [List.map_cons, hhd,
          @List.find?_cons_of_neg _ (fun kv : String × α => kv.1 == k') hd _ (by simp [h']),
          @List.find?_cons_of_neg _ (fun kv : String × α => kv.1 == k') hd _ (by simp [h']), ih]

/-- Setting a key in a Python dict makes lookup of that key return the new value. -/
theorem dictGet_dictInsert_self {α : Type} (kvs : List (String × α)) (k : String) (v : α) :
    dictGet (dictInsert kvs k v) k = some v := by
  unfold dictInsert dictGet
  cases hAny : kvs.any (fun kv => kv.1 == k) with
  | true =>
    rw [if_pos rfl, find_of_replace, if_pos hAny]
    rfl
  | false =>
    rw [if_neg (by simp), List.find?_append]
    have hNone : List.find? (fun kv => kv.1 == k) kvs = none := by
      rw [List.find?_eq_none]
      intro a ha hpa
      have hTrue : kvs.any (fun kv => kv.1 == k) = true := List.any_eq_true.mpr ⟨a, ha, hpa⟩
      rw [hAny] at hTrue
      exact Bool.false_ne_true hTrue
    rw [hNone, List.find?_cons_of_pos _ (by simp)]
    rfl

/-- Setting one key in a Python dict leaves lookups of other keys unchanged. -/
theorem dictGet_dictInsert_ne {α : Type} (kvs : List (String × α)) (k k' : String)
    (v : α) (h : k' ≠ k) :
    dictGet (dictInsert kvs k v) k' = dictGet kvs k' := by
  unfold dictInsert dictGet
  cases hAny : kvs.any (fun kv => kv.1 == k) with
  | true => rw [if_pos rfl, find_of_replace_ne kvs k k' v h]
  | false =>
    rw [if_neg (fun habs => Bool.false_ne_true habs), List.find?_append,
      List.find?_cons_of_neg _ (by simp [Ne.symm h])]
    cases List.find? (fun kv => kv.1 == k') kvs with
    | none => rfl
    | some a => rfl

/-! Evaluation of the `snake_dict_to_camel_dict` key transform on the key
strings that occur in `construct_connection`. -/

theorem camel_high_availability : camel "high_availability" = "highAvailability" := rfl

theorem camel_billing_term : camel "billing_term" = "billingTerm" := rfl

theorem camel_customer_networks : camel "customer_networks" = "customerNetworks" := rfl

theorem camel_primary_pairing_key : camel "primary_pairing_key" = "primaryPairingKey" := rfl

theorem camel_secondary_pairing_key : camel "secondary_pairing_key" = "secondaryPairingKey" := rfl

theorem camel_native_cidr : camel "native_cidr" = "nativeCidr" := rfl

theorem camel_id : camel "id" = "id" := rfl

theorem camel_name : camel "name" = "name" := rfl

theorem camel_description : camel "description" = "description" := rfl

theorem camel_speed : camel "speed" = "speed" := rfl

theorem camel_type : camel "type" = "type" := rfl

theorem camel_location : camel "location" = "location" := rfl

theorem camel_nat : camel "nat" = "nat" := rfl

theorem camel_enabled : camel "enabled" = "enabled" := rfl

theorem camel_mappings : camel "mappings" = "mappings" := rfl

theorem camel_href : camel "href" = "href" := rfl

/-- Camelization of the one-sided NAT mapping records built by
`construct_connection`: the `native_cidr` key becomes `nativeCidr` and the
value is camelized in place. -/
theorem camelizeList_map_native (l : List Value) :
    camelizeList (l.map (fun nat_mapping => Value.dict [("native_cidr", nat_mapping)])) =
      l.map (fun nat_mapping => Value.dict [("nativeCidr", camelizeValue nat_mapping)]) := by
  induction l with
  | nil => rfl
  | cons x xs ih =>
    simp only [List.map_cons, camelizeList, ih]
    rfl

/-- When `nat_mappings` is not iterable, `construct_connection` raises. -/
theorem construct_connection_of_iter_none (module : AnsibleModule)
    (h : pyIter (module.params.get "nat_mappings") = none) :
    construct_connection module = none := by
  simp [construct_connection, h]

/-- When `nat_mappings` is iterable, `construct_connection` returns exactly
the payload described by `payloadOf` and leaves the module untouched. -/
theorem construct_connection_eq (module : AnsibleModule) (natMappings : List Value)
    (h : pyIter (module.params.get "nat_mappings") = some natMappings) :
    construct_connection module = some (.dict (payloadOf module natMappings), module) := by
  simp [construct_connection, h, dictUpdate, dictInsert, camelizeEntries, camelizeValue,
    camelizeList_map_native, payloadOf,
    camel_id, camel_name, camel_description, camel_speed, camel_high_availability,
    camel_billing_term, camel_customer_networks, camel_primary_pairing_key,
    camel_secondary_pairing_key, camel_type, camel_location, camel_nat,
    camel_enabled, camel_mappings]

/-- Inversion principle for a successful run: the `nat_mappings` parameter
was iterable and the result is exactly `payloadOf` with the module unchanged. -/
theorem construct_connection_some (module : AnsibleModule) (v : Value)
    (m' : AnsibleModule) (h : construct_connection module = some (v, m')) :
    ∃ natMappings, pyIter (module.params.get "nat_mappings") = some natMappings
      ∧ v = Value.dict (payloadOf module natMappings) ∧ m' = module := by
  cases hIter : pyIter (module.params.get "nat_mappings") with
  | none =>
    rw [construct_connection_of_iter_none module hIter] at h
    cases h
  | some natMappings =>
    rw [construct_connection_eq module natMappings hIter] at h
    simp only [Option.some.injEq, Prod.mk.injEq] at h
    exact ⟨natMappings, rfl, h.1.symm, h.2.symm⟩

/-- Claim C1: whenever `construct_connection` returns a payload, its `type`
entry is exactly the string `"GOOGLE_CLOUD_INTERCONNECT"`, independent of all
module parameters. -/
theorem claim_type_discriminator_constant (module : AnsibleModule) (v : Value)
    (m' : AnsibleModule) (h : construct_connection module = some (v, m')) :
    v.getKey "type" = some (.str "GOOGLE_CLOUD_INTERCONNECT") := by
  obtain ⟨natMappings, _, hv, _⟩ := construct_connection_some module v m' h
  subst hv
  simp [payloadOf, Value.getKey, dictGet, List.find?]

/-- Witness for C1 at the concrete `exampleModule`. -/
theorem claim_type_discriminator_constant_witness :
    construct_connection exampleModule
        = some (Value.dict (payloadOf exampleModule [Value.str "10.0.0.0/24"]), exampleModule)
    ∧ Value.getKey (Value.dict (payloadOf exampleModule [Value.str "10.0.0.0/24"])) "type"
        = some (Value.str "GOOGLE_CLOUD_INTERCONNECT") :=
  ⟨by rfl, claim_type_discriminator_constant exampleModule _ exampleModule (by rfl)⟩

/-- Claim C3: the `tags` entry of every returned payload is the raw `tags`
parameter, re-applied after the naming-convention transform and therefore
not case-converted. -/
theorem claim_tags_preserved (module : AnsibleModule) (v : Value)
    (m' : AnsibleModule) (h : construct_connection module = some (v, m')) :
    v.getKey "tags" = some (module.params.get "tags") := by
  obtain ⟨natMappings, _, hv, _⟩ := construct_connection_some module v m' h
  subst hv
  simp [payloadOf, Value.getKey, dictGet, List.find?]

/-- Witness for C3 at the concrete `exampleModule`, whose `tags` parameter is
a dict with the snake_case key `"my_tag"`. -/
theorem claim_tags_preserved_witness :
    construct_connection exampleModule
        = some (Value.dict (payloadOf exampleModule [Value.str "10.0.0.0/24"]), exampleModule)
    ∧ exampleModule.params.get "tags" = Value.dict [("my_tag", Value.str "v")]
    ∧ Value.getKey (Value.dict (payloadOf exampleModule [Value.str "10.0.0.0/24"])) "tags"
        = some (exampleModule.params.get "tags") :=
  ⟨by rfl, by rfl, claim_tags_preserved exampleModule _ exampleModule (by rfl)⟩

/-- Claim C5: when the `secondary_pairing_key` parameter is unset (`None`),
the returned payload's `secondaryPairingKey` entry is present but bound to
`None` (the "empty" entry of the claim). -/
theorem claim_secondary_pairing_key_empty (module : AnsibleModule) (v : Value)
    (m' : AnsibleModule) (hsec : module.params.get "secondary_pairing_key" = Value.null)
    (h : construct_connection module = some (v, m')) :
    v.getKey "secondaryPairingKey" = some Value.null := by
  obtain ⟨natMappings, _, hv, _⟩ := construct_connection_some module v m' h
  subst hv
  simp [payloadOf, Value.getKey, dictGet, List.find?, hsec, camelizeValue]

/-- Witness for C5 at the concrete `exampleModule`, which leaves
`secondary_pairing_key` unset. -/
theorem claim_secondary_pairing_key_empty_witness :
    exampleModule.params.get "secondary_pairing_key" = Value.null
    ∧ construct_connection exampleModule
        = some (Value.dict (payloadOf exampleModule [Value.str "10.0.0.0/24"]), exampleModule)
    ∧ Value.getKey (Value.dict (payloadOf exampleModule [Value.str "10.0.0.0/24"]))
        "secondaryPairingKey" = some Value.null :=
  ⟨by rfl, by rfl,
    claim_secondary_pairing_key_empty exampleModule _ exampleModule (by rfl) (by rfl)⟩

/-- Claim C8: `construct_connection` has no side effect on the module: the
module state after a successful call is the module state before it. -/
theorem claim_no_side_effects (module : AnsibleModule) (v : Value)
    (m' : AnsibleModule) (h : construct_connection module = some (v, m')) :
    m' = module := by
  obtain ⟨natMappings, _, _, hm⟩ := construct_connection_some module v m' h
  exact hm

/-- Witness for C8 at the concrete `exampleModule`. -/
theorem claim_no_side_effects_witness :
    construct_connection exampleModule
        = some (Value.dict (payloadOf exampleModule [Value.str "10.0.0.0/24"]), exampleModule)
    ∧ exampleModule = exampleModule :=
  ⟨by rfl, claim_no_side_effects exampleModule _ exampleModule (by rfl)⟩

/-- Claim C10: when `nat_mappings` is absent or `None`, the comprehension
over it raises a `TypeError`, so `construct_connection` does not return a
payload (in particular, a null `nat_mappings` never yields an empty mappings
list). -/
theorem claim_nat_mappings_must_be_iterable (module : AnsibleModule)
    (hnull : module.params.get "nat_mappings" = Value.null) :
    construct_connection module = none := by
  apply construct_connection_of_iter_none
  rw [hnull]
  rfl

/-- Witness for C10 at the module with every parameter unset. -/
theorem claim_nat_mappings_must_be_iterable_witness :
    nullParamsModule.params.get "nat_mappings" = Value.null
    ∧ construct_connection nullParamsModule = none :=
  ⟨by rfl, claim_nat_mappings_must_be_iterable nullParamsModule (by rfl)⟩

/-- Claim C2: with `nat_enabled=true` and `nat_mappings=["10.0.0.0/24"]`,
`construct_connection` returns a payload whose NAT sub-object has
`enabled: true` and exactly one mapping entry whose native CIDR field holds
`"10.0.0.0/24"`. -/
theorem claim_nat_single_mapping (module : AnsibleModule)
    (hEnabled : module.params.get "nat_enabled" = Value.bool true)
    (hMappings : module.params.get "nat_mappings" = Value.list [Value.str "10.0.0.0/24"]) :
    ∃ v, construct_connection module = some (v, module)
      ∧ v.getKey "nat" = some (Value.dict
          [("enabled", Value.bool true),
           ("mappings", Value.list [Value.dict [("nativeCidr", Value.str "10.0.0.0/24")]])]) := by
  have hIter : pyIter (module.params.get "nat_mappings") = some [Value.str "10.0.0.0/24"] := by
    rw [hMappings]
    rfl
  refine ⟨_, construct_connection_eq module _ hIter, ?_⟩
  simp [payloadOf, Value.getKey, dictGet, List.find?, hEnabled, camelizeValue]

/-- Witness for C2 at the concrete `exampleModule`. -/
theorem claim_nat_single_mapping_witness :
    exampleModule.params.get "nat_enabled" = Value.bool true
    ∧ exampleModule.params.get "nat_mappings" = Value.list [Value.str "10.0.0.0/24"]
    ∧ ∃ v, construct_connection exampleModule = some (v, exampleModule)
        ∧ v.getKey "nat" = some (Value.dict
            [("enabled", Value.bool true),
             ("mappings", Value.list [Value.dict [("nativeCidr", Value.str "10.0.0.0/24")]])]) :=
  ⟨by rfl, by rfl, claim_nat_single_mapping exampleModule (by rfl) (by rfl)⟩

/-- Claim C4: the `location` entry of every returned payload is the reference
object resolved from `location_id` when that parameter is set (and
`location_href` unset), and from `location_href` when that one is set instead. -/
theorem claim_location_reference (module : AnsibleModule) (v : Value)
    (m' : AnsibleModule) (h : construct_connection module = some (v, m')) :
    (∀ lid, module.params.get "location_id" = Value.str lid →
        module.params.get "location_href" = Value.null →
        v.getKey "location" = some (Value.dict [("href", Value.str ("/locations/" ++ lid))]))
    ∧ (∀ lhref, module.params.get "location_href" = Value.str lhref →
        module.params.get "location_id" = Value.null →
        v.getKey "location" = some (Value.dict [("href", Value.str lhref)])) := by
  obtain ⟨natMappings, _, hv, _⟩ := construct_connection_some module v m' h
  subst hv
  constructor
  · intro lid hid _
    simp [payloadOf, Value.getKey, dictGet, List.find?, get_object_link, hid,
      camelizeValue, camelizeEntries, dictInsert, camel_href]
  · intro lhref hhref hid
    simp [payloadOf, Value.getKey, dictGet, List.find?, get_object_link, hid, hhref,
      camelizeValue, camelizeEntries, dictInsert, camel_href]

/-- Witness for C4 at the concrete `exampleModule`, which sets
`location_id="us-sea"` and leaves `location_href` unset. -/
theorem claim_location_reference_witness :
    construct_connection exampleModule
        = some (Value.dict (payloadOf exampleModule [Value.str "10.0.0.0/24"]), exampleModule)
    ∧ exampleModule.params.get "location_id" = Value.str "us-sea"
    ∧ exampleModule.params.get "location_href" = Value.null
    ∧ Value.getKey (Value.dict (payloadOf exampleModule [Value.str "10.0.0.0/24"])) "location"
        = some (Value.dict [("href", Value.str "/locations/us-sea")]) :=
  ⟨by rfl, by rfl, by rfl,
    (claim_location_reference exampleModule _ exampleModule (by rfl)).1 "us-sea"
      (by rfl) (by rfl)⟩

/-- Claim C9: every returned payload has exactly the thirteen keys derived
from the nine allowlisted parameters plus `type`, `location`, `nat` and
`tags`, in insertion order; parameters left unset still contribute an entry,
bound to `None` (shown for `id`, `description` and `secondary_pairing_key`). -/
theorem claim_all_keys_present (module : AnsibleModule) (v : Value)
    (m' : AnsibleModule) (h : construct_connection module = some (v, m')) :
    ∃ kvs, v = Value.dict kvs
      ∧ kvs.map Prod.fst
          = ["id", "name", "description", "speed", "highAvailability", "billingTerm",
             "customerNetworks", "primaryPairingKey", "secondaryPairingKey",
             "type", "location", "nat", "tags"]
      ∧ (module.params.get "id" = Value.null → dictGet kvs "id" = some Value.null)
      ∧ (module.params.get "description" = Value.null →
          dictGet kvs "description" = some Value.null)
      ∧ (module.params.get "secondary_pairing_key" = Value.null →
          dictGet kvs "secondaryPairingKey" = some Value.null) := by
  obtain ⟨natMappings, _, hv, _⟩ := construct_connection_some module v m' h
  refine ⟨payloadOf module natMappings, hv, by simp [payloadOf], ?_, ?_, ?_⟩
  · intro h0
    simp [payloadOf, dictGet, List.find?, h0, camelizeValue]
  · intro h0
    simp [payloadOf, dictGet, List.find?, h0, camelizeValue]
  · intro h0
    simp [payloadOf, dictGet, List.find?, h0, camelizeValue]

/-- Witness for C9 at the concrete `exampleModule` (whose `id`, `description`
and `secondary_pairing_key` are unset). -/
theorem claim_all_keys_present_witness :
    construct_connection exampleModule
        = some (Value.dict (payloadOf exampleModule [Value.str "10.0.0.0/24"]), exampleModule)
    ∧ ∃ kvs, Value.dict (payloadOf exampleModule [Value.str "10.0.0.0/24"]) = Value.dict kvs
      ∧ kvs.map Prod.fst
          = ["id", "name", "description", "speed", "highAvailability", "billingTerm",
             "customerNetworks", "primaryPairingKey", "secondaryPairingKey",
             "type", "location", "nat", "tags"]
      ∧ (exampleModule.params.get "id" = Value.null → dictGet kvs "id" = some Value.null)
      ∧ (exampleModule.params.get "description" = Value.null →
          dictGet kvs "description" = some Value.null)
      ∧ (exampleModule.params.get "secondary_pairing_key" = Value.null →
          dictGet kvs "secondaryPairingKey" = some Value.null) :=
  ⟨by rfl, claim_all_keys_present exampleModule _ exampleModule (by rfl)⟩

/-- Claim C6, counterexample: the parameters are not always copied verbatim.
At `cexModule`, `customer_networks` is `[{"my_key": "v"}]`, yet the payload's
`customerNetworks` entry is `[{"myKey": "v"}]`: the naming transform recursed
into the copied value and renamed the nested snake_case key. -/
theorem claim_allowlist_verbatim_counterexample :
    construct_connection cexModule
        = some (Value.dict (payloadOf cexModule []), cexModule)
    ∧ cexModule.params.get "customer_networks"
        = Value.list [Value.dict [("my_key", Value.str "v")]]
    ∧ Value.getKey (Value.dict (payloadOf cexModule [])) "customerNetworks"
        = some (Value.list [Value.dict [("myKey", Value.str "v")]])
    ∧ Value.getKey (Value.dict (payloadOf cexModule [])) "customerNetworks"
        ≠ some (cexModule.params.get "customer_networks") := by
  refine ⟨by rfl, by rfl, by rfl, ?_⟩
  intro hEq
  have h0 : (some (Value.list [Value.dict [("myKey", Value.str "v")]]) : Option Value)
      = some (Value.list [Value.dict [("my_key", Value.str "v")]]) := hEq
  have h1 := Option.some.inj h0
  injection h1 with h3
  injection h3 with h4 h5
  injection h4 with h6
  injection h6 with h7 h8
  have h9 : ("myKey" : String) = "my_key" := congrArg Prod.fst h7
  exact absurd h9 (by decide)

/-- Claim C6 as amended: each of the nine allowlisted parameters appears in
the returned payload under its camel-cased key, with its value passed through
the same recursive camel-casing transform as the rest of the payload. This
transform is the identity on scalar values (null, strings, integers,
booleans), so those are copied verbatim, but it renames snake_case keys
inside nested dict values. -/
theorem claim_allowlist_camelized (module : AnsibleModule) (v : Value)
    (m' : AnsibleModule) (h : construct_connection module = some (v, m')) :
    (v.getKey "id" = some (camelizeValue (module.params.get "id"))
      ∧ v.getKey "name" = some (camelizeValue (module.params.get "name"))
      ∧ v.getKey "description" = some (camelizeValue (module.params.get "description"))
      ∧ v.getKey "speed" = some (camelizeValue (module.params.get "speed"))
      ∧ v.getKey "highAvailability"
          = some (camelizeValue (module.params.get "high_availability"))
      ∧ v.getKey "billingTerm" = some (camelizeValue (module.params.get "billing_term"))
      ∧ v.getKey "customerNetworks"
          = some (camelizeValue (module.params.get "customer_networks"))
      ∧ v.getKey "primaryPairingKey"
          = some (camelizeValue (module.params.get "primary_pairing_key"))
      ∧ v.getKey "secondaryPairingKey"
          = some (camelizeValue (module.params.get "secondary_pairing_key")))
    ∧ (camelizeValue Value.null = Value.null
      ∧ (∀ s, camelizeValue (Value.str s) = Value.str s)
      ∧ (∀ n, camelizeValue (Value.int n) = Value.int n)
      ∧ (∀ b, camelizeValue (Value.bool b) = Value.bool b)) := by
  obtain ⟨natMappings, _, hv, _⟩ := construct_connection_some module v m' h
  subst hv
  refine ⟨⟨?_, ?_, ?_, ?_, ?_, ?_, ?_, ?_, ?_⟩,
    rfl, fun s => rfl, fun n => rfl, fun b => rfl⟩
  all_goals simp [payloadOf, Value.getKey, dictGet, List.find?]

/-- Witness for the amended C6 at the concrete `exampleModule`. -/
theorem claim_allowlist_camelized_witness :
    construct_connection exampleModule
        = some (Value.dict (payloadOf exampleModule [Value.str "10.0.0.0/24"]), exampleModule)
    ∧ ((Value.dict (payloadOf exampleModule [Value.str "10.0.0.0/24"])).getKey "id"
          = some (camelizeValue (exampleModule.params.get "id"))
      ∧ (Value.dict (payloadOf exampleModule [Value.str "10.0.0.0/24"])).getKey "name"
          = some (camelizeValue (exampleModule.params.get "name"))
      ∧ (Value.dict (payloadOf exampleModule [Value.str "10.0.0.0/24"])).getKey "description"
          = some (camelizeValue (exampleModule.params.get "description"))
      ∧ (Value.dict (payloadOf exampleModule [Value.str "10.0.0.0/24"])).getKey "speed"
          = some (camelizeValue (exampleModule.params.get "speed"))
      ∧ (Value.dict (payloadOf exampleModule [Value.str "10.0.0.0/24"])).getKey
            "highAvailability"
          = some (camelizeValue (exampleModule.params.get "high_availability"))
      ∧ (Value.dict (payloadOf exampleModule [Value.str "10.0.0.0/24"])).getKey "billingTerm"
          = some (camelizeValue (exampleModule.params.get "billing_term"))
      ∧ (Value.dict (payloadOf exampleModule [Value.str "10.0.0.0/24"])).getKey
            "customerNetworks"
          = some (camelizeValue (exampleModule.params.get "customer_networks"))
      ∧ (Value.dict (payloadOf exampleModule [Value.str "10.0.0.0/24"])).getKey
            "primaryPairingKey"
          = some (camelizeValue (exampleModule.params.get "primary_pairing_key"))
      ∧ (Value.dict (payloadOf exampleModule [Value.str "10.0.0.0/24"])).getKey
            "secondaryPairingKey"
          = some (camelizeValue (exampleModule.params.get "secondary_pairing_key")))
    ∧ (camelizeValue Value.null = Value.null
      ∧ (∀ s, camelizeValue (Value.str s) = Value.str s)
      ∧ (∀ n, camelizeValue (Value.int n) = Value.int n)
      ∧ (∀ b, camelizeValue (Value.bool b) = Value.bool b)) :=
  ⟨by rfl, (claim_allowlist_camelized exampleModule _ exampleModule (by rfl)).1,
    (claim_allowlist_camelized exampleModule _ exampleModule (by rfl)).2⟩

/-- Claim C7: whatever the helper fragments contribute, the argument spec
assembled by `main` declares `primary_pairing_key` as a required string
parameter and `secondary_pairing_key` as an optional (not required) string
parameter. -/
theorem claim_pairing_key_schema (base : List (String × ArgSpecEntry)) :
    ∃ p s : ArgSpecEntry,
      dictGet (main_argument_spec base) "primary_pairing_key" = some p
      ∧ p.ty = "str" ∧ p.isRequired = true
      ∧ dictGet (main_argument_spec base) "secondary_pairing_key" = some s
      ∧ s.ty = "str" ∧ s.isRequired = false := by
  refine ⟨⟨"str", some true⟩, ⟨"str", none⟩, ?_, rfl, rfl, ?_, rfl, rfl⟩
  · show dictGet (dictUpdate base pairing_key_argument_spec) "primary_pairing_key"
      = some ⟨"str", some true⟩
    unfold dictUpdate pairing_key_argument_spec
    simp only [List.foldl_cons, List.foldl_nil]
    rw [dictGet_dictInsert_ne _ _ _ _ (by decide), dictGet_dictInsert_self]
  · show dictGet (dictUpdate base pairing_key_argument_spec) "secondary_pairing_key"
      = some ⟨"str", none⟩
    unfold dictUpdate pairing_key_argument_spec
    simp only [List.foldl_cons, List.foldl_nil]
    rw [dictGet_dictInsert_self]

end Pureport
